import Mathlib

/-!
Verification of the campaign-ingestion lead layer (`web/src/lib/api/leads.ts` and
`web/src/types`): chunked bulk insert, filtered/paginated reads, single-row reads,
and per-campaign aggregate statistics, together with the campaign-level row-count
invariants of the ingestion orchestration.

The storage collaborator (Supabase) is modelled as a list of persisted `Lead`
rows; query-builder chains become list filters, `order` becomes a sort,
`range` becomes `drop`/`take`, and a fallible `insert` is a collaborator
function returning `none` on success or `some msg` on failure.  JS numbers
carrying probabilities are modelled as rationals.
-/

/-- `type RiskLevel = "Low" | "Medium" | "High"` from `types/lead.ts`. -/
inductive RiskLevel
| Low
| Medium
| High
deriving DecidableEq, Repr

/-- `direction: "positive" | "negative"` of a reason code. -/
inductive ShapDirection
| positive
| negative
deriving DecidableEq, Repr

/-- `interface ReasonCode` from `types/lead.ts`. -/
structure ReasonCode where
  feature : String
  direction : ShapDirection
  shap_value : ℚ
deriving DecidableEq, Repr

/-- `interface Lead` from `types/lead.ts`: one scored row with prediction outputs. -/
structure Lead where
  id : String
  campaign_run_id : String
  row_index : Nat
  age : Nat
  job : String
  marital : String
  education : String
  default_credit : String
  balance : Int
  housing : String
  loan : String
  contact : String
  day : Nat
  month : String
  campaign : Nat
  pdays : Int
  previous : Nat
  poutcome : String
  probability : ℚ
  prediction : Nat
  prediction_label : String
  risk_level : RiskLevel
  reason_codes : List ReasonCode
  created_at : String
deriving DecidableEq, Repr

/-- `interface LeadListItem` from `types/lead.ts`: the column subset selected by
`getLeadsByCampaign`. -/
structure LeadListItem where
  id : String
  row_index : Nat
  age : Nat
  job : String
  marital : String
  education : String
  balance : Int
  probability : ℚ
  risk_level : RiskLevel
deriving DecidableEq, Repr

/-- The projection performed by the select list
`"id, row_index, age, job, marital, education, balance, probability, risk_level"`. -/
def Lead.toListItem (l : Lead) : LeadListItem :=
  { id := l.id
    row_index := l.row_index
    age := l.age
    job := l.job
    marital := l.marital
    education := l.education
    balance := l.balance
    probability := l.probability
    risk_level := l.risk_level }

/-- The rows of the `leads` table belonging to one campaign:
`.eq("campaign_run_id", campaignRunId)` over the store. -/
def campaignLeads (store : List Lead) (campaignRunId : String) : List Lead :=
  store.filter (fun l => decide (l.campaign_run_id = campaignRunId))

/-- The projection of the select list `"risk_level, probability"` used by
`getLeadStatsByCampaign`. -/
structure StatRow where
  risk_level : RiskLevel
  probability : ℚ
deriving DecidableEq, Repr

/-- The result record of `getLeadStatsByCampaign`. -/
structure LeadStats where
  total : Nat
  highRisk : Nat
  mediumRisk : Nat
  lowRisk : Nat
  avgProbability : Option ℚ
deriving DecidableEq, Repr

/-- JS `Math.round`: nearest integer, halves toward positive infinity. -/
def jsRound (q : ℚ) : ℤ := ⌊q + 1/2⌋

/-- Body of `getLeadStatsByCampaign` after the select: zero-lead early return,
per-tier filter counts, `reduce`-based mean, `Math.round(avg * 10000) / 10000`. -/
def statsOfRows (rows : List StatRow) : LeadStats :=
  let total := rows.length
  if total = 0 then
    { total := 0, highRisk := 0, mediumRisk := 0, lowRisk := 0, avgProbability := none }
  else
    let highRisk := (rows.filter (fun l => decide (l.risk_level = RiskLevel.High))).length
    let mediumRisk := (rows.filter (fun l => decide (l.risk_level = RiskLevel.Medium))).length
    let lowRisk := (rows.filter (fun l => decide (l.risk_level = RiskLevel.Low))).length
    let avgProbability := rows.foldl (fun sum l => sum + l.probability) 0 / (total : ℚ)
    { total := total
      highRisk := highRisk
      mediumRisk := mediumRisk
      lowRisk := lowRisk
      avgProbability := some ((jsRound (avgProbability * 10000) : ℚ) / 10000) }

/-- The select issued by `getLeadStatsByCampaign`, as a read returning the rows
and the (unchanged) store it leaves behind. -/
def selectStatRows (store : List Lead) (campaignRunId : String) :
    List StatRow × List Lead :=
  ((campaignLeads store campaignRunId).map fun l => ⟨l.risk_level, l.probability⟩, store)

/-- `getLeadStatsByCampaign` from `lib/api/leads.ts`. -/
def getLeadStatsByCampaign (store : List Lead) (campaignRunId : String) : LeadStats :=
  statsOfRows (selectStatRows store campaignRunId).1

/-- `getLeadStatsByCampaign` as a store operation: the aggregate result together
with the store state its single select leaves behind. -/
def getLeadStatsByCampaignOp (store : List Lead) (campaignRunId : String) :
    LeadStats × List Lead :=
  let rows := selectStatRows store campaignRunId
  (statsOfRows rows.1, rows.2)

/-- A PostgREST error as surfaced to `getLeadById` (`error.code`, `error.message`). -/
structure PostgrestError where
  code : String
  message : String
deriving DecidableEq, Repr

/-- `getLeadById` from `lib/api/leads.ts`, parametrised by the outcome of the
`.select("*").eq("id", id).single()` call: `PGRST116` becomes `null`, any other
store failure is re-thrown, a found row is returned unchanged. -/
def getLeadById (resp : Except PostgrestError Lead) : Except String (Option Lead) :=
  match resp with
  | .error e =>
      if e.code = "PGRST116" then .ok none
      else .error ("Failed to fetch lead: " ++ e.message)
  | .ok row => .ok (some row)

/-- `interface LeadPaginationOptions`: optional page number and page size. -/
structure LeadPaginationOptions where
  page : Option Nat
  pageSize : Option Nat
deriving DecidableEq, Repr

/-- `interface LeadFilterOptions`: optional risk tier, probability bounds, job
and education filters. -/
structure LeadFilterOptions where
  riskLevel : Option RiskLevel
  minProbability : Option ℚ
  maxProbability : Option ℚ
  job : Option String
  education : Option String
deriving DecidableEq, Repr

/-- `interface PaginatedLeads`: the result of the paginated lead query. -/
structure PaginatedLeads where
  data : List LeadListItem
  total : Nat
  page : Nat
  pageSize : Nat
  totalPages : Nat
deriving DecidableEq, Repr

/-- The query built by `getLeadsByCampaign` before ordering and `range`: the
campaign equality match followed by one conditional filter per option.  The
string filters are guarded by JS truthiness (`if (filters.job)`), so an
empty-string filter adds no constraint. -/
def leadsQuery (store : List Lead) (campaignRunId : String)
    (filters : LeadFilterOptions) : List Lead :=
  let q := store.filter (fun l => decide (l.campaign_run_id = campaignRunId))
  let q := match filters.riskLevel with
    | some r => q.filter (fun l => decide (l.risk_level = r))
    | none => q
  let q := match filters.minProbability with
    | some m => q.filter (fun l => decide (m ≤ l.probability))
    | none => q
  let q := match filters.maxProbability with
    | some m => q.filter (fun l => decide (l.probability ≤ m))
    | none => q
  let q := match filters.job with
    | some j => if j = "" then q else q.filter (fun l => decide (l.job = j))
    | none => q
  let q := match filters.education with
    | some e => if e = "" then q else q.filter (fun l => decide (l.education = e))
    | none => q
  q

/-- The ordering `.order("probability", { ascending: false })`: highest
probability first. -/
def leadGE (a b : Lead) : Prop := b.probability ≤ a.probability

instance : DecidableRel leadGE :=
  fun a b => inferInstanceAs (Decidable (b.probability ≤ a.probability))

instance : IsTotal Lead leadGE := ⟨fun a b => le_total b.probability a.probability⟩

instance : IsTrans Lead leadGE := ⟨fun _ _ _ h1 h2 => le_trans h2 h1⟩

/-- `getLeadsByCampaign` from `lib/api/leads.ts`: defaults `page = 1`,
`pageSize = 25`, filter chain, probability-descending order,
`range(offset, offset + pageSize - 1)`, exact count, `Math.ceil(total / pageSize)`. -/
def getLeadsByCampaign (store : List Lead) (campaignRunId : String)
    (options : LeadPaginationOptions) (filters : LeadFilterOptions) : PaginatedLeads :=
  let page := options.page.getD 1
  let pageSize := options.pageSize.getD 25
  let offset := (page - 1) * pageSize
  let matching := leadsQuery store campaignRunId filters
  let sorted := List.insertionSort leadGE matching
  let windowRows := (sorted.drop offset).take pageSize
  let total := matching.length
  { data := windowRows.map Lead.toListItem
    total := total
    page := page
    pageSize := pageSize
    totalPages := (total + pageSize - 1) / pageSize }

/-- A single-lead store used to instantiate the statistics theorems. -/
def wLead : Lead :=
  { id := "w1"
    campaign_run_id := "c"
    row_index := 0
    age := 30
    job := "services"
    marital := "single"
    education := "secondary"
    default_credit := "no"
    balance := 100
    housing := "no"
    loan := "no"
    contact := "cellular"
    day := 5
    month := "may"
    campaign := 1
    pdays := -1
    previous := 0
    poutcome := "unknown"
    probability := 1/2
    prediction := 1
    prediction_label := "yes"
    risk_level := RiskLevel.High
    reason_codes := []
    created_at := "2025-01-01T00:00:00Z" }

/-- `type LeadInsert = Database["public"]["Tables"]["leads"]["Insert"]`: the
`toLeadInsert` conversion re-packs the payload (its `reason_codes` cast is a
type-level identity). -/
def toLeadInsert (l : Lead) : Lead :=
  { l with reason_codes := l.reason_codes }

/-- `const BATCH_SIZE = 500` in `bulkInsertLeads`. -/
def BATCH_SIZE : Nat := 500

/-- The observable outcome of `bulkInsertLeads`: the batches handed to the
storage collaborator's `insert`, the store rows left persisted, and the value
returned (row count) or thrown (error message). -/
structure BulkInsertResult where
  attempts : List (List Lead)
  store : List Lead
  result : Except String Nat
deriving Repr

/-- The `for (let i = 0; i < leads.length; i += BATCH_SIZE)` loop of
`bulkInsertLeads`.  The collaborator `ins` is given the chunk index and the
batch; `none` means the insert committed (the batch is appended to the store),
`some msg` means it failed, and the loop throws
`Failed to insert leads: ${msg}` without touching earlier chunks. -/
def bulkInsertLeadsAux (ins : Nat → List Lead → Option String) (chunkIdx : Nat)
    (store : List Lead) (insertedCount : Nat) (rest : List Lead) : BulkInsertResult :=
  if h : rest = [] then
    { attempts := [], store := store, result := .ok insertedCount }
  else
    let batch := (rest.take BATCH_SIZE).map toLeadInsert
    match ins chunkIdx batch with
    | some msg =>
        { attempts := [batch], store := store
          result := .error ("Failed to insert leads: " ++ msg) }
    | none =>
        let r := bulkInsertLeadsAux ins (chunkIdx + 1) (store ++ batch)
          (insertedCount + batch.length) (rest.drop BATCH_SIZE)
        { attempts := batch :: r.attempts, store := r.store, result := r.result }
termination_by rest.length
decreasing_by
  simp only [List.length_drop, BATCH_SIZE]
  have : rest.length ≠ 0 := fun hz => h (List.length_eq_zero.mp hz)
  omega

/-- `bulkInsertLeads` from `lib/api/leads.ts`, over an initial store state. -/
def bulkInsertLeads (ins : Nat → List Lead → Option String) (store : List Lead)
    (leads : List Lead) : BulkInsertResult :=
  bulkInsertLeadsAux ins 0 store 0 leads

/-- A storage collaborator whose every insert fails. -/
def insAlwaysFail (msg : String) : Nat → List Lead → Option String :=
  fun _ _ => some msg

/-- A storage collaborator whose first insert commits and every later one fails. -/
def insFailAfterFirst (msg : String) : Nat → List Lead → Option String :=
  fun chunkIdx _ => if chunkIdx = 0 then none else some msg

/-- A family of leads in campaign `"c"` with pairwise distinct probabilities,
used to exercise the paginated read at its default page size. -/
def cexLead (i : Nat) : Lead :=
  { id := toString i
    campaign_run_id := "c"
    row_index := i
    age := 30
    job := "services"
    marital := "single"
    education := "secondary"
    default_credit := "no"
    balance := 0
    housing := "no"
    loan := "no"
    contact := "cellular"
    day := 1
    month := "jan"
    campaign := 1
    pdays := -1
    previous := 0
    poutcome := "unknown"
    probability := mkRat i 100
    prediction := 0
    prediction_label := "no"
    risk_level := RiskLevel.Low
    reason_codes := []
    created_at := "2025-01-01T00:00:00Z" }

/-- Twenty-six leads in campaign `"c"`: one more than the default page size. -/
def cexStore : List Lead := (List.range 26).map cexLead

/-- `status: "processing" | "completed" | "failed"` from `types/campaign.ts`. -/
inductive CampaignStatus
| processing
| completed
| failed
deriving DecidableEq, Repr

/-- `interface CampaignRun` from `types/campaign.ts`, restricted to the
row-statistics, status and error fields governed by the ingestion invariants
(`number` counts are modelled as integers). -/
structure CampaignRun where
  total_rows : Int
  processed_rows : Int
  dropped_rows : Int
  status : CampaignStatus
  error_message : Option String
deriving DecidableEq, Repr

/-- Modelled from the spec: the campaign record created by the
CampaignOrchestrator before the first network call — `status = processing`
with zero processed and dropped rows (spec section 4.6; the orchestrating
upload route is not part of the library sources). -/
def initialCampaign (totalRows : Nat) : CampaignRun :=
  { total_rows := totalRows
    processed_rows := 0
    dropped_rows := 0
    status := .processing
    error_message := none }

/-- Modelled from the spec: the terminal campaign record written by the
CampaignOrchestrator (spec sections 4.3, 4.6, 7 and 8; the orchestrating
upload route is not part of the library sources).  `scoring` is the engine
outcome — an error message, or counts of engine-scored and engine-rejected
rows; a count mismatch is a reconciliation error.  `persist` is the
chunked-persistence outcome for the accepted rows — on failure it carries the
number of already-committed records and the storage message.  On any failure
the record turns `failed` with an error message and `dropped_rows` accounts
for every row not persisted; on success the accepted rows are the processed
rows and the engine-rejected rows are the dropped rows. -/
def finalCampaign (totalRows : Nat) (scoring : Except String (Nat × Nat))
    (persist : Nat → Except (Nat × String) Nat) : CampaignRun :=
  match scoring with
  | .error msg =>
      { total_rows := totalRows
        processed_rows := 0
        dropped_rows := totalRows
        status := .failed
        error_message := some msg }
  | .ok (validCount, invalidCount) =>
      if validCount + invalidCount ≠ totalRows then
        { total_rows := totalRows
          processed_rows := 0
          dropped_rows := totalRows
          status := .failed
          error_message := some "Reconciliation error: row count mismatch" }
      else
        match persist validCount with
        | .ok _ =>
            { total_rows := totalRows
              processed_rows := validCount
              dropped_rows := invalidCount
              status := .completed
              error_message := none }
        | .error (committed, msg) =>
            { total_rows := totalRows
              processed_rows := committed
              dropped_rows := totalRows - committed
              status := .failed
              error_message := some msg }

/-- Modelled from the spec: the persisted states the campaign record passes
through during one ingestion run — created as `processing`, then updated once
to its terminal state. -/
def campaignStates (totalRows : Nat) (scoring : Except String (Nat × Nat))
    (persist : Nat → Except (Nat × String) Nat) : List CampaignRun :=
  [initialCampaign totalRows, finalCampaign totalRows scoring persist]

/-- Per-tier filter counts over any row list partition the list: every
`RiskLevel` matches exactly one of the three tier filters. -/
theorem statRows_tier_partition (rows : List StatRow) :
    (rows.filter (fun l => decide (l.risk_level = RiskLevel.High))).length
      + (rows.filter (fun l => decide (l.risk_level = RiskLevel.Medium))).length
      + (rows.filter (fun l => decide (l.risk_level = RiskLevel.Low))).length
      = rows.length := by
  induction rows with
  | nil => rfl
  | cons r rs ih =>
      rcases r with ⟨rl, p⟩
      cases rl <;> simp [List.filter_cons] <;> omega

/-- Left fold of probability addition equals the initial value plus the sum. -/
theorem foldl_add_probability (rows : List StatRow) (init : ℚ) :
    rows.foldl (fun sum l => sum + l.probability) init
      = init + (rows.map StatRow.probability).sum := by
  induction rows generalizing init with
  | nil => simp
  | cons r rs ih => simp [ih]; ring

/-- C3: for every campaign, the statistics of `getLeadStatsByCampaign` satisfy
`highRisk + mediumRisk + lowRisk = total`, and `total` is the number of the
campaign's persisted leads (every persisted lead carries one of the three
risk levels by construction of `RiskLevel`). -/
theorem getLeadStatsByCampaign_tier_sum (store : List Lead) (campaignRunId : String) :
    (getLeadStatsByCampaign store campaignRunId).highRisk
        + (getLeadStatsByCampaign store campaignRunId).mediumRisk
        + (getLeadStatsByCampaign store campaignRunId).lowRisk
      = (getLeadStatsByCampaign store campaignRunId).total
    ∧ (getLeadStatsByCampaign store campaignRunId).total
      = (campaignLeads store campaignRunId).length := by
  unfold getLeadStatsByCampaign selectStatRows statsOfRows
  by_cases h : ((campaignLeads store campaignRunId).map
      fun l => (⟨l.risk_level, l.probability⟩ : StatRow)).length = 0
  · simp only [List.length_map] at h
    simp [h]
  · simp only [List.length_map] at h
    simp only [List.length_map, h, if_neg h]
    refine ⟨?_, rfl⟩
    simpa using statRows_tier_partition
      ((campaignLeads store campaignRunId).map fun l => (⟨l.risk_level, l.probability⟩ : StatRow))

/-- C4: a campaign with zero persisted leads yields all-zero counts and a null
mean probability. -/
theorem getLeadStatsByCampaign_empty (store : List Lead) (campaignRunId : String)
    (h : campaignLeads store campaignRunId = []) :
    getLeadStatsByCampaign store campaignRunId
      = { total := 0, highRisk := 0, mediumRisk := 0, lowRisk := 0, avgProbability := none } := by
  unfold getLeadStatsByCampaign selectStatRows statsOfRows
  simp [h]

/-- C4 witness: the empty store has zero leads in campaign `"c"` and the
statistics are the all-zero record with a null mean. -/
theorem getLeadStatsByCampaign_empty_witness :
    getLeadStatsByCampaign [] "c"
      = { total := 0, highRisk := 0, mediumRisk := 0, lowRisk := 0, avgProbability := none } :=
  getLeadStatsByCampaign_empty [] "c" rfl

/-- C5: for a campaign with at least one persisted lead, the reported mean is the
arithmetic mean of the campaign's probabilities rounded to four decimal places
with JS `Math.round` semantics. -/
theorem getLeadStatsByCampaign_avg (store : List Lead) (campaignRunId : String)
    (h : campaignLeads store campaignRunId ≠ []) :
    (getLeadStatsByCampaign store campaignRunId).avgProbability
      = some ((jsRound ((((campaignLeads store campaignRunId).map Lead.probability).sum
            / ((campaignLeads store campaignRunId).length : ℚ)) * 10000) : ℚ) / 10000) := by
  unfold getLeadStatsByCampaign selectStatRows statsOfRows
  simp [h, List.map_map, Function.comp_def, foldl_add_probability]

/-- C5 witness: a one-lead campaign with probability `1/2` reports mean `1/2`
(`Math.round(0.5 * 10000) / 10000 = 0.5`). -/
theorem getLeadStatsByCampaign_avg_witness :
    (getLeadStatsByCampaign [wLead] "c").avgProbability = some (1/2 : ℚ) := by
  have h := getLeadStatsByCampaign_avg [wLead] "c" (by simp [campaignLeads, wLead])
  rw [h]
  norm_num [campaignLeads, wLead, jsRound]

/-- C6: the aggregation is read-only and idempotent: it leaves the store
unchanged, and re-running it on that unchanged store returns the identical
statistics. -/
theorem getLeadStatsByCampaignOp_readonly_idempotent (store : List Lead) (campaignRunId : String) :
    (getLeadStatsByCampaignOp store campaignRunId).2 = store
    ∧ (getLeadStatsByCampaignOp (getLeadStatsByCampaignOp store campaignRunId).2 campaignRunId).1
      = (getLeadStatsByCampaignOp store campaignRunId).1
    ∧ (getLeadStatsByCampaignOp (getLeadStatsByCampaignOp store campaignRunId).2 campaignRunId).2
      = store :=
  ⟨rfl, rfl, rfl⟩

/-- C10: `getLeadById` returns `null` exactly when the store reports error code
`PGRST116`; every other store failure is raised as an error, and a found row is
returned unchanged. -/
theorem getLeadById_spec (resp : Except PostgrestError Lead) :
    (getLeadById resp = .ok none ↔ ∃ e, resp = .error e ∧ e.code = "PGRST116")
    ∧ (∀ e, resp = .error e → e.code ≠ "PGRST116"
        → getLeadById resp = .error ("Failed to fetch lead: " ++ e.message))
    ∧ (∀ row, resp = .ok row → getLeadById resp = .ok (some row)) := by
  rcases resp with e | row
  · by_cases h : e.code = "PGRST116" <;> simp [getLeadById, h]
  · simp [getLeadById]

/-- C10 witness: a `PGRST116` store response maps to a successful `null`. -/
theorem getLeadById_spec_witness :
    getLeadById (.error ⟨"PGRST116", "The result contains 0 rows"⟩) = .ok none :=
  (getLeadById_spec (.error ⟨"PGRST116", "The result contains 0 rows"⟩)).1.mpr
    ⟨⟨"PGRST116", "The result contains 0 rows"⟩, rfl, rfl⟩

/-- Universal property of `(t + s - 1) / s`, the integer form of
`Math.ceil(total / pageSize)` used for `totalPages`. -/
theorem ceil_div_le_iff (t s c : Nat) (hs : 0 < s) :
    (t + s - 1) / s ≤ c ↔ t ≤ c * s := by
  rw [Nat.div_le_iff_le_mul_add_pred hs, Nat.mul_comm s c]
  generalize c * s = K
  omega

/-- Membership in the filter chain of `getLeadsByCampaign`: a lead is kept iff
it is stored, belongs to the campaign, and passes every effective filter (a
string filter is effective only when non-empty, by JS truthiness). -/
theorem mem_leadsQuery_iff (store : List Lead) (campaignRunId : String)
    (f : LeadFilterOptions) (l : Lead) :
    l ∈ leadsQuery store campaignRunId f ↔
      l ∈ store ∧ l.campaign_run_id = campaignRunId
        ∧ (∀ r, f.riskLevel = some r → l.risk_level = r)
        ∧ (∀ m, f.minProbability = some m → m ≤ l.probability)
        ∧ (∀ m, f.maxProbability = some m → l.probability ≤ m)
        ∧ (∀ j, f.job = some j → j ≠ "" → l.job = j)
        ∧ (∀ e, f.education = some e → e ≠ "" → l.education = e) := by
  obtain ⟨orl, omin, omax, ojob, oedu⟩ := f
  rcases orl with _ | rl <;> rcases omin with _ | m <;> rcases omax with _ | M <;>
      rcases ojob with _ | j <;> rcases oedu with _ | e <;>
      simp only [leadsQuery] <;>
      (try split_ifs) <;>
      simp_all [List.mem_filter] <;>
      tauto

/-- Every lead returned by the filter chain is a stored lead. -/
theorem mem_of_mem_leadsQuery (store : List Lead) (campaignRunId : String)
    (f : LeadFilterOptions) {l : Lead} (h : l ∈ leadsQuery store campaignRunId f) :
    l ∈ store :=
  ((mem_leadsQuery_iff store campaignRunId f l).mp h).1

/-- C8: the paginated lead listing returns at most `pageSize` rows, namely the
window at offset `(page - 1) * pageSize` of the matching leads sorted by
probability descending; `total` is the exact matching count, `totalPages` is
the ceiling of `total / pageSize`, and omitted options default to page 1 with
page size 25. -/
theorem getLeadsByCampaign_pagination (store : List Lead) (campaignRunId : String)
    (f : LeadFilterOptions) (p s : Nat) (_hp : 1 ≤ p) (hs : 1 ≤ s) :
    (getLeadsByCampaign store campaignRunId ⟨some p, some s⟩ f).data.length ≤ s
    ∧ (getLeadsByCampaign store campaignRunId ⟨some p, some s⟩ f).data
        = (((List.insertionSort leadGE (leadsQuery store campaignRunId f)).drop
            ((p - 1) * s)).take s).map Lead.toListItem
    ∧ (List.insertionSort leadGE (leadsQuery store campaignRunId f)).Perm
        (leadsQuery store campaignRunId f)
    ∧ List.Sorted leadGE (List.insertionSort leadGE (leadsQuery store campaignRunId f))
    ∧ (getLeadsByCampaign store campaignRunId ⟨some p, some s⟩ f).total
        = (leadsQuery store campaignRunId f).length
    ∧ (getLeadsByCampaign store campaignRunId ⟨some p, some s⟩ f).page = p
    ∧ (getLeadsByCampaign store campaignRunId ⟨some p, some s⟩ f).pageSize = s
    ∧ (∀ c : Nat, (getLeadsByCampaign store campaignRunId ⟨some p, some s⟩ f).totalPages ≤ c
        ↔ (getLeadsByCampaign store campaignRunId ⟨some p, some s⟩ f).total ≤ c * s)
    ∧ getLeadsByCampaign store campaignRunId ⟨none, none⟩ f
        = getLeadsByCampaign store campaignRunId ⟨some 1, some 25⟩ f := by
  refine ⟨?_, rfl, List.perm_insertionSort _ _, List.sorted_insertionSort _ _,
    rfl, rfl, rfl, ?_, rfl⟩
  · simp only [getLeadsByCampaign, Option.getD_some, List.length_map, List.length_take]
    omega
  · intro c
    exact ceil_div_le_iff _ s c hs

/-- C8 witness: at page 1 with page size 2 over a one-lead store, at most two
rows are returned. -/
theorem getLeadsByCampaign_pagination_witness :
    (getLeadsByCampaign [wLead] "c" ⟨some 1, some 2⟩
      ⟨none, none, none, none, none⟩).data.length ≤ 2 :=
  (getLeadsByCampaign_pagination [wLead] "c" ⟨none, none, none, none, none⟩ 1 2
    (by norm_num) (by norm_num)).1

/-- C7 counterexample: with 26 matching leads and all filters omitted, the lead
with the lowest probability belongs to the campaign and satisfies every
(vacuous) filter, yet does not appear in the result of `getLeadsByCampaign`,
whose default page holds only 25 rows. -/
theorem getLeadsByCampaign_filter_cex :
    cexLead 0 ∈ cexStore
    ∧ (cexLead 0).campaign_run_id = "c"
    ∧ (cexLead 0).toListItem
        ∉ (getLeadsByCampaign cexStore "c" ⟨none, none⟩
            ⟨none, none, none, none, none⟩).data := by
  refine ⟨by decide, rfl, by decide⟩

/-- C7 (amended): over a store with distinct lead ids and string filters that
are not supplied as the empty string, a stored lead passes the filter chain iff
it belongs to the campaign and satisfies each supplied filter; it appears in
the returned data exactly when it passes the chain, provided the requested
window covers all matching rows (page 1 with page size equal to the matching
count) — smaller windows return only a prefix of the sorted matching leads. -/
theorem getLeadsByCampaign_filter_spec (store : List Lead) (campaignRunId : String)
    (f : LeadFilterOptions) (l : Lead)
    (hids : (store.map Lead.id).Nodup)
    (hjob : f.job ≠ some "")
    (hedu : f.education ≠ some "")
    (hl : l ∈ store) :
    (l ∈ leadsQuery store campaignRunId f ↔
        (l.campaign_run_id = campaignRunId
          ∧ (∀ r, f.riskLevel = some r → l.risk_level = r)
          ∧ (∀ m, f.minProbability = some m → m ≤ l.probability)
          ∧ (∀ m, f.maxProbability = some m → l.probability ≤ m)
          ∧ (∀ j, f.job = some j → l.job = j)
          ∧ (∀ e, f.education = some e → l.education = e)))
    ∧ (l.toListItem ∈ (getLeadsByCampaign store campaignRunId
          ⟨some 1, some (leadsQuery store campaignRunId f).length⟩ f).data
        ↔ l ∈ leadsQuery store campaignRunId f) := by
  constructor
  · rw [mem_leadsQuery_iff]
    constructor
    · rintro ⟨-, hc, h1, h2, h3, h4, h5⟩
      refine ⟨hc, h1, h2, h3, ?_, ?_⟩
      · intro j hj
        refine h4 j hj ?_
        rintro rfl
        exact hjob hj
      · intro e he
        refine h5 e he ?_
        rintro rfl
        exact hedu he
    · rintro ⟨hc, h1, h2, h3, h4, h5⟩
      exact ⟨hl, hc, h1, h2, h3, fun j hj _ => h4 j hj, fun e he _ => h5 e he⟩
  · have hperm := List.perm_insertionSort leadGE (leadsQuery store campaignRunId f)
    have hlen : (leadsQuery store campaignRunId f).length
        = (List.insertionSort leadGE (leadsQuery store campaignRunId f)).length :=
      hperm.length_eq.symm
    have hdata : (getLeadsByCampaign store campaignRunId
          ⟨some 1, some (leadsQuery store campaignRunId f).length⟩ f).data
        = (List.insertionSort leadGE (leadsQuery store campaignRunId f)).map Lead.toListItem := by
      simp only [getLeadsByCampaign, Option.getD_some, Nat.sub_self, Nat.zero_mul,
        List.drop_zero, hlen, List.take_length]
    rw [hdata, List.mem_map]
    constructor
    · rintro ⟨a, ha, hal⟩
      rw [List.mem_insertionSort] at ha
      have has : a ∈ store := mem_of_mem_leadsQuery store campaignRunId f ha
      have hid : a.id = l.id := congrArg LeadListItem.id hal
      have : a = l := List.inj_on_of_nodup_map hids has hl hid
      rwa [this] at ha
    · intro hml
      exact ⟨l, (List.mem_insertionSort leadGE).mpr hml, rfl⟩

/-- C7 (amended) witness: in a one-lead store with no filters, the lead passes
the chain and appears in the full-window page. -/
theorem getLeadsByCampaign_filter_spec_witness :
    wLead ∈ leadsQuery [wLead] "c" ⟨none, none, none, none, none⟩
    ∧ wLead.toListItem ∈ (getLeadsByCampaign [wLead] "c"
        ⟨some 1, some (leadsQuery [wLead] "c" ⟨none, none, none, none, none⟩).length⟩
        ⟨none, none, none, none, none⟩).data := by
  have h := getLeadsByCampaign_filter_spec [wLead] "c" ⟨none, none, none, none, none⟩ wLead
    (by simp) (by simp) (by simp) (List.mem_singleton.mpr rfl)
  have hmem : wLead ∈ leadsQuery [wLead] "c" ⟨none, none, none, none, none⟩ := by
    simp [leadsQuery, wLead]
  exact ⟨hmem, h.2.mpr hmem⟩


/-- The payload conversion is an identity on the modelled record. -/
theorem map_toLeadInsert (xs : List Lead) : xs.map toLeadInsert = xs := by
  induction xs with
  | nil => rfl
  | cons x xs ih => simp [toLeadInsert, ih]

/-- Loop exit: no leads left means no insert is attempted and the running count
is returned. -/
theorem bulkInsertLeadsAux_nil (ins : Nat → List Lead → Option String) (i : Nat)
    (store : List Lead) (c : Nat) :
    bulkInsertLeadsAux ins i store c [] =
      { attempts := [], store := store, result := .ok c } := by
  unfold bulkInsertLeadsAux
  rfl

/-- Loop step, collaborator failure: the failing batch is the only attempt of
this step, the store is untouched, and the error is thrown. -/
theorem bulkInsertLeadsAux_fail (ins : Nat → List Lead → Option String) (i : Nat)
    (store : List Lead) (c : Nat) (rest : List Lead) (msg : String) (h : rest ≠ [])
    (hins : ins i ((rest.take BATCH_SIZE).map toLeadInsert) = some msg) :
    bulkInsertLeadsAux ins i store c rest =
      { attempts := [(rest.take BATCH_SIZE).map toLeadInsert], store := store
        result := .error ("Failed to insert leads: " ++ msg) } := by
  conv_lhs => rw [bulkInsertLeadsAux]
  rw [dif_neg h]
  simp only [hins]

/-- Loop step, collaborator success: the batch is appended to the store and the
loop continues on the remaining leads. -/
theorem bulkInsertLeadsAux_ok (ins : Nat → List Lead → Option String) (i : Nat)
    (store : List Lead) (c : Nat) (rest : List Lead) (h : rest ≠ [])
    (hins : ins i ((rest.take BATCH_SIZE).map toLeadInsert) = none) :
    bulkInsertLeadsAux ins i store c rest =
      { attempts := (rest.take BATCH_SIZE).map toLeadInsert ::
          (bulkInsertLeadsAux ins (i + 1) (store ++ (rest.take BATCH_SIZE).map toLeadInsert)
            (c + ((rest.take BATCH_SIZE).map toLeadInsert).length)
            (rest.drop BATCH_SIZE)).attempts
        store := (bulkInsertLeadsAux ins (i + 1)
            (store ++ (rest.take BATCH_SIZE).map toLeadInsert)
            (c + ((rest.take BATCH_SIZE).map toLeadInsert).length)
            (rest.drop BATCH_SIZE)).store
        result := (bulkInsertLeadsAux ins (i + 1)
            (store ++ (rest.take BATCH_SIZE).map toLeadInsert)
            (c + ((rest.take BATCH_SIZE).map toLeadInsert).length)
            (rest.drop BATCH_SIZE)).result } := by
  conv_lhs => rw [bulkInsertLeadsAux]
  rw [dif_neg h]
  simp only [hins]

/-- When every insert succeeds, the loop hands the collaborator exactly the
consecutive 500-slices of the input in order, returns the total length, and
appends the whole input to the store. -/
theorem bulkInsertLeadsAux_all_ok (ins : Nat → List Lead → Option String)
    (hins : ∀ i b, ins i b = none) :
    ∀ n rest, rest.length = n → ∀ i (store : List Lead) c,
      (bulkInsertLeadsAux ins i store c rest).attempts.flatten = rest
      ∧ (bulkInsertLeadsAux ins i store c rest).attempts.map List.length
          = List.replicate (rest.length / 500) 500
            ++ (if rest.length % 500 = 0 then [] else [rest.length % 500])
      ∧ (bulkInsertLeadsAux ins i store c rest).result = .ok (c + rest.length)
      ∧ (bulkInsertLeadsAux ins i store c rest).store = store ++ rest := by
  intro n
  induction n using Nat.strong_induction_on with
  | _ n IH =>
    intro rest hlen i store c
    by_cases hr : rest = []
    · subst hr
      simp [bulkInsertLeadsAux_nil]
    · have hpos : 0 < rest.length := List.length_pos.mpr hr
      have hstep := bulkInsertLeadsAux_ok ins i store c rest hr (hins _ _)
      have hatt := congrArg BulkInsertResult.attempts hstep
      have hsto := congrArg BulkInsertResult.store hstep
      have hres := congrArg BulkInsertResult.result hstep
      dsimp only at hatt hsto hres
      have hdlen : (rest.drop BATCH_SIZE).length < n := by
        subst hlen
        simp only [List.length_drop, BATCH_SIZE]
        omega
      obtain ⟨j1, j2, j3, j4⟩ := IH (rest.drop BATCH_SIZE).length hdlen
        (rest.drop BATCH_SIZE) rfl (i + 1)
        (store ++ (rest.take BATCH_SIZE).map toLeadInsert)
        (c + ((rest.take BATCH_SIZE).map toLeadInsert).length)
      refine ⟨?_, ?_, ?_, ?_⟩
      · rw [hatt, List.flatten_cons, j1, map_toLeadInsert, List.take_append_drop]
      · rw [hatt, List.map_cons, j2, map_toLeadInsert]
        simp only [List.length_take, List.length_drop, BATCH_SIZE]
        by_cases hle : rest.length ≤ 500
        · have h1 : min 500 rest.length = rest.length := by omega
          have h2 : rest.length - 500 = 0 := by omega
          rw [h1, h2]
          simp only [Nat.zero_div, Nat.zero_mod, List.replicate_zero, if_pos rfl,
            List.nil_append]
          by_cases h500 : rest.length = 500
          · rw [h500]
            decide
          · have hd : rest.length / 500 = 0 := by omega
            have hm : rest.length % 500 = rest.length := by omega
            have hne : rest.length ≠ 0 := by omega
            simp [hd, hm, hne]
        · have h1 : min 500 rest.length = 500 := by omega
          have hm : (rest.length - 500) % 500 = rest.length % 500 := by omega
          have hd : rest.length / 500 = (rest.length - 500) / 500 + 1 := by omega
          rw [h1, hm, hd, List.replicate_succ, List.cons_append]
      · rw [hres, j3]
        congr 1
        simp only [List.length_map, List.length_take, List.length_drop, BATCH_SIZE]
        omega
      · rw [hsto, j4, map_toLeadInsert, List.append_assoc, List.take_append_drop]

/-- When chunks `0..k-1` commit and chunk `k` fails, the loop leaves exactly the
first `500 * k` leads appended to the store, throws the collaborator's error,
and has attempted `k + 1` inserts. -/
theorem bulkInsertLeadsAux_first_fail (ins : Nat → List Lead → Option String) (msg : String) :
    ∀ k rest i (store : List Lead) c,
      (∀ j b, j < k → ins (i + j) b = none) →
      (∀ b, ins (i + k) b = some msg) →
      500 * k < rest.length →
      (bulkInsertLeadsAux ins i store c rest).store = store ++ rest.take (500 * k)
      ∧ (bulkInsertLeadsAux ins i store c rest).result
          = .error ("Failed to insert leads: " ++ msg)
      ∧ (bulkInsertLeadsAux ins i store c rest).attempts.length = k + 1 := by
  intro k
  induction k with
  | zero =>
      intro rest i store c hok hfail hlt
      have hr : rest ≠ [] := by
        intro hh
        rw [hh] at hlt
        simp at hlt
      rw [bulkInsertLeadsAux_fail ins i store c rest msg hr (by simpa using hfail _)]
      simp
  | succ k IH =>
      intro rest i store c hok hfail hlt
      have hr : rest ≠ [] := by
        intro hh
        rw [hh] at hlt
        simp at hlt
      have hstep := bulkInsertLeadsAux_ok ins i store c rest hr
        (by simpa using hok 0 _ (Nat.succ_pos k))
      have hatt := congrArg BulkInsertResult.attempts hstep
      have hsto := congrArg BulkInsertResult.store hstep
      have hres := congrArg BulkInsertResult.result hstep
      dsimp only at hatt hsto hres
      obtain ⟨s1, s2, s3⟩ := IH (rest.drop BATCH_SIZE) (i + 1)
        (store ++ (rest.take BATCH_SIZE).map toLeadInsert)
        (c + ((rest.take BATCH_SIZE).map toLeadInsert).length)
        (fun j b hj => by
          have hjj := hok (j + 1) b (by omega)
          rwa [show i + (j + 1) = i + 1 + j by omega] at hjj)
        (fun b => by
          have hb := hfail b
          rwa [show i + (k + 1) = i + 1 + k by omega] at hb)
        (by
          simp only [List.length_drop, BATCH_SIZE]
          omega)
      refine ⟨?_, ?_, ?_⟩
      · rw [hsto, s1, map_toLeadInsert, List.append_assoc]
        congr 1
        rw [show 500 * (k + 1) = 500 + 500 * k by ring, List.take_add]
        rfl
      · rw [hres, s2]
      · rw [hatt, List.length_cons, s3]

/-- C2: `bulkInsertLeads` slices the input in order into consecutive 500-record
chunks (last chunk the remainder), issues exactly `ceil(n / 500)` inserts —
for 1200 leads, three chunks of sizes 500, 500, 200 — and when every chunk
commits it returns `n` and leaves all `n` leads persisted. -/
theorem bulkInsertLeads_chunks (ins : Nat → List Lead → Option String)
    (store leads : List Lead) (hins : ∀ i b, ins i b = none) :
    (bulkInsertLeads ins store leads).attempts.flatten = leads
    ∧ (bulkInsertLeads ins store leads).attempts.map List.length
        = List.replicate (leads.length / 500) 500
          ++ (if leads.length % 500 = 0 then [] else [leads.length % 500])
    ∧ (bulkInsertLeads ins store leads).attempts.length = (leads.length + 499) / 500
    ∧ (bulkInsertLeads ins store leads).result = .ok leads.length
    ∧ (bulkInsertLeads ins store leads).store = store ++ leads
    ∧ (leads.length = 1200 →
        (bulkInsertLeads ins store leads).attempts.map List.length = [500, 500, 200]) := by
  obtain ⟨h1, h2, h3, h4⟩ :=
    bulkInsertLeadsAux_all_ok ins hins leads.length leads rfl 0 store 0
  refine ⟨h1, h2, ?_, by simpa using h3, h4, ?_⟩
  · show (bulkInsertLeadsAux ins 0 store 0 leads).attempts.length = (leads.length + 499) / 500
    have hlen := congrArg List.length h2
    rw [List.length_map, List.length_append, List.length_replicate] at hlen
    by_cases h : leads.length % 500 = 0 <;> simp [h] at hlen <;> rw [hlen] <;> omega
  · intro h1200
    show (bulkInsertLeadsAux ins 0 store 0 leads).attempts.map List.length = [500, 500, 200]
    rw [h2, h1200]
    decide

/-- C2 witness: a single always-committing insert of one lead returns 1. -/
theorem bulkInsertLeads_chunks_witness :
    (bulkInsertLeads (fun _ _ => none) [] [wLead]).result = .ok 1 := by
  simpa using (bulkInsertLeads_chunks (fun _ _ => none) [] [wLead] (fun _ _ => rfl)).2.2.2.1

/-- C1 (amended): when chunks `0..k-1` commit and chunk `k` fails, the earlier
chunks (the first `500 * k` leads) stay persisted — no rollback — and the
caller receives the storage error message; the number of already-committed
records is not part of the failure report (the count is returned only when all
chunks commit). -/
theorem bulkInsertLeads_chunk_failure (ins : Nat → List Lead → Option String)
    (store leads : List Lead) (k : Nat) (msg : String)
    (hok : ∀ j b, j < k → ins j b = none)
    (hfail : ∀ b, ins k b = some msg)
    (hk : 500 * k < leads.length) :
    (bulkInsertLeads ins store leads).store = store ++ leads.take (500 * k)
    ∧ (bulkInsertLeads ins store leads).result
        = .error ("Failed to insert leads: " ++ msg)
    ∧ (bulkInsertLeads ins store leads).attempts.length = k + 1 :=
  bulkInsertLeadsAux_first_fail ins msg k leads 0 store 0
    (fun j b hj => by simpa using hok j b hj) (fun b => by simpa using hfail b) hk

/-- C1 (amended) witness: a first-chunk failure over a one-lead input leaves the
store untouched and throws the collaborator's message. -/
theorem bulkInsertLeads_chunk_failure_witness :
    (bulkInsertLeads (insAlwaysFail "boom") [] [wLead]).result
      = .error ("Failed to insert leads: " ++ "boom") :=
  (bulkInsertLeads_chunk_failure (insAlwaysFail "boom") [] [wLead] 0 "boom"
    (fun j _ hj => absurd hj (Nat.not_lt_zero j)) (fun _ => rfl) (by norm_num)).2.1

/-- C1 counterexample: two failing runs — one that commits nothing and one that
commits a full 500-record chunk before failing — produce the identical
caller-visible outcome, so the reported failure cannot carry the number of
already-committed records. -/
theorem bulkInsertLeads_report_cex :
    (bulkInsertLeads (insAlwaysFail "boom") [] [wLead]).result
        = (bulkInsertLeads (insFailAfterFirst "boom") []
            (List.replicate 501 wLead)).result
    ∧ (bulkInsertLeads (insAlwaysFail "boom") [] [wLead]).result
        = .error "Failed to insert leads: boom"
    ∧ (bulkInsertLeads (insAlwaysFail "boom") [] [wLead]).store.length = 0
    ∧ (bulkInsertLeads (insFailAfterFirst "boom") []
        (List.replicate 501 wLead)).store.length = 500 := by
  have hA := bulkInsertLeadsAux_first_fail (insAlwaysFail "boom") "boom" 0 [wLead] 0 [] 0
    (fun j _ hj => absurd hj (Nat.not_lt_zero j)) (fun _ => rfl) (by norm_num)
  have hB := bulkInsertLeadsAux_first_fail (insFailAfterFirst "boom") "boom" 1
    (List.replicate 501 wLead) 0 [] 0
    (fun j b hj => by
      have hj0 : j = 0 := by omega
      simp [insFailAfterFirst, hj0])
    (fun b => by simp [insFailAfterFirst])
    (by rw [List.length_replicate]; norm_num)
  refine ⟨?_, ?_, ?_, ?_⟩
  · show (bulkInsertLeadsAux (insAlwaysFail "boom") 0 [] 0 [wLead]).result
        = (bulkInsertLeadsAux (insFailAfterFirst "boom") 0 [] 0
            (List.replicate 501 wLead)).result
    rw [hA.2.1, hB.2.1]
  · show (bulkInsertLeadsAux (insAlwaysFail "boom") 0 [] 0 [wLead]).result
        = .error "Failed to insert leads: boom"
    rw [hA.2.1]
    rfl
  · show (bulkInsertLeadsAux (insAlwaysFail "boom") 0 [] 0 [wLead]).store.length = 0
    rw [hA.1]
    rfl
  · show (bulkInsertLeadsAux (insFailAfterFirst "boom") 0 [] 0
        (List.replicate 501 wLead)).store.length = 500
    rw [hB.1, List.nil_append, List.take_replicate, List.length_replicate]
    norm_num

/-- C9: across the persisted states of an ingestion run, the three row counts
are non-negative and satisfy `processed_rows + dropped_rows ≤ total_rows`, with
equality at every terminal (non-`processing`) status — provided the
persistence collaborator never reports more committed records than rows it was
given. -/
theorem campaignStates_row_invariant (totalRows : Nat)
    (scoring : Except String (Nat × Nat))
    (persist : Nat → Except (Nat × String) Nat)
    (hpersist : ∀ v c m, persist v = .error (c, m) → c ≤ v) :
    ∀ r ∈ campaignStates totalRows scoring persist,
      0 ≤ r.total_rows ∧ 0 ≤ r.processed_rows ∧ 0 ≤ r.dropped_rows
      ∧ r.processed_rows + r.dropped_rows ≤ r.total_rows
      ∧ (r.status ≠ .processing → r.processed_rows + r.dropped_rows = r.total_rows) := by
  intro r hr
  simp only [campaignStates, List.mem_cons, List.not_mem_nil, or_false] at hr
  rcases hr with rfl | rfl
  · simp [initialCampaign]
  · rcases scoring with msg | ⟨v, d⟩
    · simp only [finalCampaign]
      refine ⟨?_, ?_, ?_, ?_, ?_⟩ <;> (try simp) <;> (try omega)
    · by_cases hvd : v + d ≠ totalRows
      · simp only [finalCampaign, if_pos hvd]
        refine ⟨?_, ?_, ?_, ?_, ?_⟩ <;> (try simp) <;> (try omega)
      · have hvd' : v + d = totalRows := by omega
        rcases hp : persist v with ⟨c, m⟩ | n
        · have hc : c ≤ v := hpersist v c m hp
          simp only [finalCampaign, hp, if_neg hvd]
          refine ⟨?_, ?_, ?_, ?_, ?_⟩ <;> (try simp) <;> (try omega)
        · simp only [finalCampaign, hp, if_neg hvd]
          refine ⟨?_, ?_, ?_, ?_, ?_⟩ <;> (try simp) <;> (try omega)

/-- C9 witness: a two-row run whose persistence fails with nothing committed
ends `failed` with `processed_rows + dropped_rows = total_rows`. -/
theorem campaignStates_row_invariant_witness :
    (finalCampaign 2 (.ok (1, 1)) (fun _ => .error (0, "storage down"))).processed_rows
      + (finalCampaign 2 (.ok (1, 1)) (fun _ => .error (0, "storage down"))).dropped_rows
      = (finalCampaign 2 (.ok (1, 1)) (fun _ => .error (0, "storage down"))).total_rows := by
  have h := campaignStates_row_invariant 2 (.ok (1, 1))
    (fun _ => .error (0, "storage down"))
    (fun v c m hm => by
      simp at hm
      omega)
  have hmem : finalCampaign 2 (.ok (1, 1)) (fun _ => .error (0, "storage down"))
      ∈ campaignStates 2 (.ok (1, 1)) (fun _ => .error (0, "storage down")) := by
    simp [campaignStates]
  exact (h _ hmem).2.2.2.2 (by decide)
